import Mathlib

/-!
Verification of the gesture-to-signal mapping engine of the hand-audio
controller: landmark geometry extraction (`landmarkUtils.ts`), smoothing
filters (`filters.ts`), and the mapping orchestrator (`GestureMapper.ts`).
Machine numbers are modelled as real numbers; JS `Map` objects are modelled
as insertion-ordered association lists (`assocSet` replaces in place and
appends new keys, matching `Map.set` iteration semantics).
-/

noncomputable section

namespace HandAudio

/-! ## Data model (`types/hand.ts`, `types/mapping.ts`) -/

/-- One 3D hand landmark (normalized coordinates). -/
structure Landmark where
  x : ℝ
  y : ℝ
  z : ℝ

instance : Inhabited Landmark := ⟨⟨0, 0, 0⟩⟩

/-- A hand's 21 landmarks in fixed anatomical order (MediaPipe layout). -/
def Landmarks : Type := Fin 21 → Landmark

/-- Handedness label. -/
inductive Handedness where
  | Left
  | Right
deriving DecidableEq

namespace LandmarkIndex

def WRIST : Fin 21 := 0
def THUMB_CMC : Fin 21 := 1
def THUMB_MCP : Fin 21 := 2
def THUMB_IP : Fin 21 := 3
def THUMB_TIP : Fin 21 := 4
def INDEX_MCP : Fin 21 := 5
def INDEX_PIP : Fin 21 := 6
def INDEX_DIP : Fin 21 := 7
def INDEX_TIP : Fin 21 := 8
def MIDDLE_MCP : Fin 21 := 9
def MIDDLE_PIP : Fin 21 := 10
def MIDDLE_DIP : Fin 21 := 11
def MIDDLE_TIP : Fin 21 := 12
def RING_MCP : Fin 21 := 13
def RING_PIP : Fin 21 := 14
def RING_DIP : Fin 21 := 15
def RING_TIP : Fin 21 := 16
def PINKY_MCP : Fin 21 := 17
def PINKY_PIP : Fin 21 := 18
def PINKY_DIP : Fin 21 := 19
def PINKY_TIP : Fin 21 := 20

end LandmarkIndex

/-- One detected hand in a frame (`HandResult`). -/
structure HandResult where
  landmarks : Landmarks
  handedness : Handedness
  confidence : ℝ

/-- One frame of hand-tracking output (`HandTrackingResult`);
frame dimensions are unused by the mapper and omitted. -/
structure HandTrackingResult where
  hands : List HandResult
  timestamp : ℝ

/-! ## Landmark geometry (`hand-tracking/landmarkUtils.ts`) -/

/-- `Math.atan2(dy, dx)`: angle of the point `(dx, dy)` in `(-pi, pi]`,
with `atan2 0 0 = 0`, as given by the complex argument. -/
def atan2 (dy dx : ℝ) : ℝ := Complex.arg ⟨dx, dy⟩

/-- `distance2D`: Euclidean distance ignoring depth. -/
def distance2D (a b : Landmark) : ℝ :=
  Real.sqrt ((a.x - b.x) * (a.x - b.x) + (a.y - b.y) * (a.y - b.y))

/-- `getPinchDistance`: 2D distance between the thumb tip and a chosen fingertip. -/
def getPinchDistance (landmarks : Landmarks) (fingerTip : Fin 21) : ℝ :=
  distance2D (landmarks LandmarkIndex.THUMB_TIP) (landmarks fingerTip)

/-- `getHandOpenness`: average 2D distance of the five fingertips from the
centroid of wrist and the four base knuckles. -/
def getHandOpenness (landmarks : Landmarks) : ℝ :=
  let palm : List Landmark :=
    [landmarks LandmarkIndex.WRIST, landmarks LandmarkIndex.INDEX_MCP,
     landmarks LandmarkIndex.MIDDLE_MCP, landmarks LandmarkIndex.RING_MCP,
     landmarks LandmarkIndex.PINKY_MCP]
  let palmCenter : Landmark :=
    ⟨(palm.map Landmark.x).sum / palm.length,
     (palm.map Landmark.y).sum / palm.length,
     (palm.map Landmark.z).sum / palm.length⟩
  let fingertips : List Landmark :=
    [landmarks LandmarkIndex.THUMB_TIP, landmarks LandmarkIndex.INDEX_TIP,
     landmarks LandmarkIndex.MIDDLE_TIP, landmarks LandmarkIndex.RING_TIP,
     landmarks LandmarkIndex.PINKY_TIP]
  (fingertips.map (fun tip => distance2D tip palmCenter)).sum / fingertips.length

/-- Finger names used by `getFingerCurl`. -/
inductive Finger where
  | thumb
  | index
  | middle
  | ring
  | pinky
deriving DecidableEq

/-- The four landmark indices of a finger, base to tip (`fingerIndices`). -/
def fingerIndices : Finger → Fin 21 × Fin 21 × Fin 21 × Fin 21
  | .thumb => (LandmarkIndex.THUMB_CMC, LandmarkIndex.THUMB_MCP,
               LandmarkIndex.THUMB_IP, LandmarkIndex.THUMB_TIP)
  | .index => (LandmarkIndex.INDEX_MCP, LandmarkIndex.INDEX_PIP,
               LandmarkIndex.INDEX_DIP, LandmarkIndex.INDEX_TIP)
  | .middle => (LandmarkIndex.MIDDLE_MCP, LandmarkIndex.MIDDLE_PIP,
                LandmarkIndex.MIDDLE_DIP, LandmarkIndex.MIDDLE_TIP)
  | .ring => (LandmarkIndex.RING_MCP, LandmarkIndex.RING_PIP,
              LandmarkIndex.RING_DIP, LandmarkIndex.RING_TIP)
  | .pinky => (LandmarkIndex.PINKY_MCP, LandmarkIndex.PINKY_PIP,
               LandmarkIndex.PINKY_DIP, LandmarkIndex.PINKY_TIP)

/-- `getFingerCurl`: 1 − angle/pi between the (base→mid) and (mid→tip)
2D vectors of the selected finger; 0 when either vector is degenerate. -/
def getFingerCurl (landmarks : Landmarks) (finger : Finger) : ℝ :=
  let idx := fingerIndices finger
  let mcp := landmarks idx.1
  let pip := landmarks idx.2.1
  let tip := landmarks idx.2.2.2
  let v1x := pip.x - mcp.x
  let v1y := pip.y - mcp.y
  let v2x := tip.x - pip.x
  let v2y := tip.y - pip.y
  let dot := v1x * v2x + v1y * v2y
  let mag1 := Real.sqrt (v1x * v1x + v1y * v1y)
  let mag2 := Real.sqrt (v2x * v2x + v2y * v2y)
  if mag1 = 0 ∨ mag2 = 0 then 0
  else
    let c := max (-1) (min 1 (dot / (mag1 * mag2)))
    1 - Real.arccos c / Real.pi

/-- `getHandRotation`: angle of the wrist→middle-knuckle vector. -/
def getHandRotation (landmarks : Landmarks) : ℝ :=
  let wrist := landmarks LandmarkIndex.WRIST
  let middleMcp := landmarks LandmarkIndex.MIDDLE_MCP
  atan2 (middleMcp.y - wrist.y) (middleMcp.x - wrist.x)

/-- `getPalmFacing`: sign of the z-component of the cross product of the
wrist→middle-knuckle and wrist→index-knuckle vectors, mapped to {0, 1/2, 1}. -/
def getPalmFacing (landmarks : Landmarks) : ℝ :=
  let wrist := landmarks LandmarkIndex.WRIST
  let middleMcp := landmarks LandmarkIndex.MIDDLE_MCP
  let indexMcp := landmarks LandmarkIndex.INDEX_MCP
  let v1x := middleMcp.x - wrist.x
  let v1y := middleMcp.y - wrist.y
  let v2x := indexMcp.x - wrist.x
  let v2y := indexMcp.y - wrist.y
  let normalZ := v1x * v2y - v1y * v2x
  (Real.sign normalZ + 1) / 2

/-- One iteration body of the `getFingerSpread` loop: the angle between the
fingertip-minus-knuckle vectors of two adjacent fingers, contributing 0 when
either vector has zero magnitude. -/
def spreadContribution (t1 m1 t2 m2 : Landmark) : ℝ :=
  let v1x := t1.x - m1.x
  let v1y := t1.y - m1.y
  let v2x := t2.x - m2.x
  let v2y := t2.y - m2.y
  let dot := v1x * v2x + v1y * v2y
  let mag1 := Real.sqrt (v1x * v1x + v1y * v1y)
  let mag2 := Real.sqrt (v2x * v2x + v2y * v2y)
  if 0 < mag1 ∧ 0 < mag2 then
    Real.arccos (max (-1) (min 1 (dot / (mag1 * mag2))))
  else 0

/-- `getFingerSpread`: loop over the 3 adjacent pairs among the
{index, middle, ring, pinky} fingertip/knuckle vectors, accumulating the
pair angle (skipping degenerate pairs), then divide the total by
`fingertips.length - 1 = 3`. -/
def getFingerSpread (landmarks : Landmarks) : ℝ :=
  let fingertips : List Landmark :=
    [landmarks LandmarkIndex.INDEX_TIP, landmarks LandmarkIndex.MIDDLE_TIP,
     landmarks LandmarkIndex.RING_TIP, landmarks LandmarkIndex.PINKY_TIP]
  let mcps : List Landmark :=
    [landmarks LandmarkIndex.INDEX_MCP, landmarks LandmarkIndex.MIDDLE_MCP,
     landmarks LandmarkIndex.RING_MCP, landmarks LandmarkIndex.PINKY_MCP]
  let totalAngle :=
    (List.range (fingertips.length - 1)).foldl
      (fun acc i =>
        acc + spreadContribution (fingertips.getD i default) (mcps.getD i default)
          (fingertips.getD (i + 1) default) (mcps.getD (i + 1) default)) 0
  totalAngle / (fingertips.length - 1)

/-! ## Smoothing filters (`filters.ts`) -/

/-- Internal low-pass filter used by the one-euro filter
(`LowPassFilterInternal`): state `y` plus a mutable `alpha`. -/
structure LowPassFilterInternal where
  y : Option ℝ
  alpha : ℝ

/-- `LowPassFilterInternal.filter`: bootstrap to the first input, then
`y ← alpha·x + (1−alpha)·y`; returns the new output and state. -/
def LowPassFilterInternal.filter (f : LowPassFilterInternal) (x : ℝ) :
    ℝ × LowPassFilterInternal :=
  match f.y with
  | none => (x, { f with y := some x })
  | some y =>
    let y2 := f.alpha * x + (1 - f.alpha) * y
    (y2, { f with y := some y2 })

/-- `LowPassFilterInternal.reset`: clears the state, keeps alpha. -/
def LowPassFilterInternal.reset (f : LowPassFilterInternal) : LowPassFilterInternal :=
  { f with y := none }

/-- `LowPassFilterInternal.setAlpha`. -/
def LowPassFilterInternal.setAlpha (f : LowPassFilterInternal) (a : ℝ) :
    LowPassFilterInternal :=
  { f with alpha := a }

/-- State of the `OneEuroFilter` class. -/
structure OneEuroState where
  minCutoff : ℝ
  beta : ℝ
  dCutoff : ℝ
  xFilter : LowPassFilterInternal
  dxFilter : LowPassFilterInternal
  lastTime : Option ℝ
  lastValue : Option ℝ

/-- `OneEuroFilter.alpha`: alpha from a cutoff frequency and time step,
`1 / (1 + tau/dt)` with `tau = 1/(2·pi·cutoff)`. -/
def oneEuroAlpha (cutoff dt : ℝ) : ℝ :=
  let tau := 1 / (2 * Real.pi * cutoff)
  1 / (1 + tau / dt)

/-- The `OneEuroFilter` constructor. -/
def OneEuroState.init (minCutoff beta dCutoff : ℝ) : OneEuroState :=
  { minCutoff := minCutoff
    beta := beta
    dCutoff := dCutoff
    xFilter := ⟨none, oneEuroAlpha minCutoff (1 / 60)⟩
    dxFilter := ⟨none, oneEuroAlpha dCutoff (1 / 60)⟩
    lastTime := none
    lastValue := none }

/-- `OneEuroFilter.filter` with an explicit timestamp (the mapper always
passes one, so the `Date.now()` fallback is not modelled). -/
def OneEuroState.filter (s : OneEuroState) (value now : ℝ) : ℝ × OneEuroState :=
  match s.lastTime, s.lastValue with
  | some lastTime, some lastValue =>
    let dt := max (now - lastTime) (1e-6 : ℝ)
    let dx := (value - lastValue) / dt
    let dxF := s.dxFilter.setAlpha (oneEuroAlpha s.dCutoff dt)
    let r1 := dxF.filter dx
    let cutoff := s.minCutoff + s.beta * |r1.1|
    let xF := s.xFilter.setAlpha (oneEuroAlpha cutoff dt)
    let r2 := xF.filter value
    (r2.1, { s with lastTime := some now, lastValue := some value,
                    dxFilter := r1.2, xFilter := r2.2 })
  | _, _ =>
    let xF := s.xFilter.setAlpha (oneEuroAlpha s.minCutoff (1 / 60))
    let r := xF.filter value
    (r.1, { s with lastTime := some now, lastValue := some value, xFilter := r.2 })

/-- `OneEuroFilter.reset`. -/
def OneEuroState.reset (s : OneEuroState) : OneEuroState :=
  { s with lastTime := none, lastValue := none,
           xFilter := s.xFilter.reset, dxFilter := s.dxFilter.reset }

/-- Filter type tags of `filters.ts` (`FilterType`). -/
inductive FilterType where
  | none
  | lowPass
  | oneEuro
  | exponential
  | movingAverage
deriving DecidableEq

/-- `FilterConfig` of `filters.ts`; absent optional fields are `none`. -/
structure FilterConfig where
  type : FilterType
  factor : Option ℝ := Option.none
  alpha : Option ℝ := Option.none
  minCutoff : Option ℝ := Option.none
  beta : Option ℝ := Option.none
  dCutoff : Option ℝ := Option.none
  windowSize : Option ℕ := Option.none

/-- Runtime state of any filter produced by `createFilter`; the variants
carry the private fields of the corresponding classes. -/
inductive Filter where
  | passthrough
  | lowPass (value : Option ℝ) (factor : ℝ)
  | exponential (value : Option ℝ) (alpha : ℝ)
  | oneEuro (st : OneEuroState)
  | movingAverage (window : List ℝ) (size : ℕ) (sum : ℝ)

/-- `Filter.filter(value, timestamp)`: one filtering step, returning the
output and the updated filter state.  Only the one-euro variant reads the
timestamp. -/
def Filter.filter : Filter → ℝ → ℝ → ℝ × Filter
  | .passthrough, value, _ => (value, .passthrough)
  | .lowPass v factor, value, _ =>
    match v with
    | Option.none => (value, .lowPass (some value) factor)
    | some y =>
      let y2 := y * factor + value * (1 - factor)
      (y2, .lowPass (some y2) factor)
  | .exponential v alpha, value, _ =>
    match v with
    | Option.none => (value, .exponential (some value) alpha)
    | some y =>
      let y2 := alpha * value + (1 - alpha) * y
      (y2, .exponential (some y2) alpha)
  | .oneEuro st, value, ts =>
    let r := st.filter value ts
    (r.1, .oneEuro r.2)
  | .movingAverage window size sum, value, _ =>
    let w := window ++ [value]
    let s := sum + value
    if size < w.length then
      let w2 := w.tail
      let s2 := s - w.headD 0
      (s2 / w2.length, .movingAverage w2 size s2)
    else
      (s / w.length, .movingAverage w size s)

/-- `Filter.reset`. -/
def Filter.reset : Filter → Filter
  | .passthrough => .passthrough
  | .lowPass _ factor => .lowPass Option.none factor
  | .exponential _ alpha => .exponential Option.none alpha
  | .oneEuro st => .oneEuro st.reset
  | .movingAverage _ size _ => .movingAverage [] size 0

/-- `createFilter`: the filter factory, with each constructor's domain
clamping (`LowPassFilter` clamps factor into [0,1], `ExponentialFilter`
clamps alpha into [0.01,1], `MovingAverageFilter` forces window size ≥ 1). -/
def createFilter (config : FilterConfig) : Filter :=
  match config.type with
  | .lowPass => .lowPass Option.none (max 0 (min 1 (config.factor.getD 0.5)))
  | .exponential => .exponential Option.none (max 0.01 (min 1 (config.alpha.getD 0.3)))
  | .oneEuro => .oneEuro (OneEuroState.init (config.minCutoff.getD 1.0)
      (config.beta.getD 0.007) (config.dCutoff.getD 1.0))
  | .movingAverage => .movingAverage [] (max 1 (config.windowSize.getD 5)) 0
  | .none => .passthrough

/-! ## Mapping configuration (`types/mapping.ts`) -/

/-- `GestureType` (closed enumeration). -/
inductive GestureType where
  | pinch_distance
  | finger_curl
  | hand_openness
  | hand_rotation
  | wrist_position_x
  | wrist_position_y
  | wrist_depth
  | finger_spread
  | palm_facing
  | velocity_x
  | velocity_y
  | custom
deriving DecidableEq

/-- `MappingCurve` (closed enumeration). -/
inductive MappingCurve where
  | linear
  | exponential
  | logarithmic
  | easeIn
  | easeOut
  | easeInOut
  | smoothStep
deriving DecidableEq

/-- Target hand selector: a concrete handedness or `any`. -/
inductive HandSelector where
  | hand (h : Handedness)
  | any
deriving DecidableEq

/-- `GestureInput`; TS-optional fields are `Option`s. -/
structure GestureInput where
  type : GestureType
  hand : HandSelector
  finger : Option (Fin 21) := Option.none
  customExtractor : Option (Landmarks → ℝ) := Option.none
  inputRange : ℝ × ℝ
  curve : Option MappingCurve := Option.none

/-- `ParameterOutput`; the optional `invert` flag defaults to falsy. -/
structure ParameterOutput where
  deviceId : String
  parameterName : String
  outputRange : ℝ × ℝ
  invert : Option Bool := Option.none

/-- Filter type tags allowed in a `SmoothingConfig` (a subset of
`FilterType`). -/
inductive SmoothingType where
  | none
  | lowPass
  | oneEuro
  | exponential
deriving DecidableEq

/-- The injection of `SmoothingConfig.type` into the factory's `FilterType`. -/
def SmoothingType.toFilterType : SmoothingType → FilterType
  | .none => .none
  | .lowPass => .lowPass
  | .oneEuro => .oneEuro
  | .exponential => .exponential

/-- `SmoothingConfig`. -/
structure SmoothingConfig where
  type : SmoothingType
  factor : Option ℝ := Option.none
  minCutoff : Option ℝ := Option.none
  beta : Option ℝ := Option.none
  dCutoff : Option ℝ := Option.none

/-- `GestureMapping`. -/
structure GestureMapping where
  id : String
  name : String
  enabled : Bool
  input : GestureInput
  output : ParameterOutput
  smoothing : SmoothingConfig

/-- `MappingState`. -/
structure MappingState where
  rawValue : ℝ
  smoothedValue : ℝ
  outputValue : ℝ
  lastUpdate : ℝ

/-- `Partial<GestureMapping>` as used by `updateMapping`: every field
optional; present fields replace the stored ones (object spread). -/
structure MappingUpdate where
  id : Option String := Option.none
  name : Option String := Option.none
  enabled : Option Bool := Option.none
  input : Option GestureInput := Option.none
  output : Option ParameterOutput := Option.none
  smoothing : Option SmoothingConfig := Option.none

/-- `{ ...mapping, ...updates }`. -/
def mergeUpdate (m : GestureMapping) (u : MappingUpdate) : GestureMapping :=
  { id := u.id.getD m.id
    name := u.name.getD m.name
    enabled := u.enabled.getD m.enabled
    input := u.input.getD m.input
    output := u.output.getD m.output
    smoothing := u.smoothing.getD m.smoothing }

/-! ## Association lists standing for JS `Map`

`Map.set` replaces an existing key in place (keeping its iteration
position) and appends a new key; `Map.get` returns `undefined` for an
absent key. -/

/-- `Map.set`. -/
def assocSet {κ α : Type} [DecidableEq κ] : List (κ × α) → κ → α → List (κ × α)
  | [], k, v => [(k, v)]
  | (k2, v2) :: rest, k, v =>
    if k2 = k then (k, v) :: rest else (k2, v2) :: assocSet rest k v

/-- `Map.get`. -/
def assocGet {κ α : Type} [DecidableEq κ] : List (κ × α) → κ → Option α
  | [], _ => Option.none
  | (k2, v2) :: rest, k => if k2 = k then some v2 else assocGet rest k

/-- `Map.delete`. -/
def assocErase {κ α : Type} [DecidableEq κ] : List (κ × α) → κ → List (κ × α)
  | [], _ => []
  | (k2, v2) :: rest, k =>
    if k2 = k then rest else (k2, v2) :: assocErase rest k

/-! ## The orchestrator (`GestureMapper.ts`) -/

/-- The private fields of the `GestureMapper` class.  The parameter-change
callback is modelled by returning the list of emitted
(deviceId, parameterName, value) triples from `process`. -/
structure GestureMapper where
  mappings : List (String × GestureMapping)
  filters : List (String × Filter)
  states : List (String × MappingState)
  previousLandmarks : List (Handedness × Landmarks)
  previousTimestamp : ℝ

/-- The `GestureMapper` constructor. -/
def GestureMapper.init : GestureMapper :=
  { mappings := [], filters := [], states := [],
    previousLandmarks := [], previousTimestamp := 0 }

/-- `GestureMapper.createFilterForMapping`: builds a `FilterConfig`
forwarding only type, factor, minCutoff, beta and dCutoff, then calls the
factory. -/
def GestureMapper.createFilterForMapping (config : SmoothingConfig) : Filter :=
  createFilter
    { type := config.type.toFilterType
      factor := config.factor
      minCutoff := config.minCutoff
      beta := config.beta
      dCutoff := config.dCutoff }

/-- `GestureMapper.addMapping`. -/
def GestureMapper.addMapping (g : GestureMapper) (m : GestureMapping) : GestureMapper :=
  { g with
    mappings := assocSet g.mappings m.id m
    filters := assocSet g.filters m.id (GestureMapper.createFilterForMapping m.smoothing)
    states := assocSet g.states m.id ⟨0, 0, 0, 0⟩ }

/-- `GestureMapper.removeMapping`. -/
def GestureMapper.removeMapping (g : GestureMapper) (id : String) : GestureMapper :=
  { g with
    mappings := assocErase g.mappings id
    filters := assocErase g.filters id
    states := assocErase g.states id }

/-- `GestureMapper.updateMapping`: silently returns when the id is unknown;
otherwise merges the partial update and rebuilds the filter only when the
update carries a smoothing config. -/
def GestureMapper.updateMapping (g : GestureMapper) (id : String)
    (updates : MappingUpdate) : GestureMapper :=
  match assocGet g.mappings id with
  | Option.none => g
  | some m =>
    let updated := mergeUpdate m updates
    { g with
      mappings := assocSet g.mappings id updated
      filters :=
        if updates.smoothing.isSome then
          assocSet g.filters id (GestureMapper.createFilterForMapping updated.smoothing)
        else g.filters }

/-- `GestureMapper.getState`. -/
def GestureMapper.getState (g : GestureMapper) (id : String) : Option MappingState :=
  assocGet g.states id

/-- `GestureMapper.findHand`. -/
def findHand (hands : List HandResult) : HandSelector → Option HandResult
  | .any => hands.head?
  | .hand target => hands.find? (fun h => h.handedness = target)

/-- The `fingerMap` lookup of the `finger_curl` case: tip index to finger
name, defaulting to the index finger. -/
def fingerFromTip (i : Fin 21) : Finger :=
  if i = LandmarkIndex.THUMB_TIP then .thumb
  else if i = LandmarkIndex.INDEX_TIP then .index
  else if i = LandmarkIndex.MIDDLE_TIP then .middle
  else if i = LandmarkIndex.RING_TIP then .ring
  else if i = LandmarkIndex.PINKY_TIP then .pinky
  else .index

/-- `GestureMapper.extractGestureValue`.  The method reads only the
`previousLandmarks` field of `this`, passed here explicitly. -/
def extractGestureValue (previousLandmarks : List (Handedness × Landmarks))
    (landmarks : Landmarks) (input : GestureInput) (handedness : Handedness)
    (deltaTime : ℝ) : ℝ :=
  match input.type with
  | .pinch_distance => getPinchDistance landmarks (input.finger.getD LandmarkIndex.INDEX_TIP)
  | .hand_openness => getHandOpenness landmarks
  | .finger_curl =>
    getFingerCurl landmarks (fingerFromTip (input.finger.getD LandmarkIndex.INDEX_TIP))
  | .hand_rotation => getHandRotation landmarks
  | .wrist_position_x => (landmarks LandmarkIndex.WRIST).x
  | .wrist_position_y => (landmarks LandmarkIndex.WRIST).y
  | .wrist_depth => (landmarks LandmarkIndex.WRIST).z
  | .finger_spread => getFingerSpread landmarks
  | .palm_facing => getPalmFacing landmarks
  | .velocity_x =>
    match assocGet previousLandmarks handedness with
    | Option.none => 0
    | some prevLandmarks =>
      if deltaTime = 0 then 0
      else
        |((landmarks LandmarkIndex.WRIST).x - (prevLandmarks LandmarkIndex.WRIST).x)
          / deltaTime|
  | .velocity_y =>
    match assocGet previousLandmarks handedness with
    | Option.none => 0
    | some prevLandmarks =>
      if deltaTime = 0 then 0
      else
        |((landmarks LandmarkIndex.WRIST).y - (prevLandmarks LandmarkIndex.WRIST).y)
          / deltaTime|
  | .custom =>
    match input.customExtractor with
    | some f => f landmarks
    | Option.none => 0

/-- The normalize-then-clamp step at the head of `applyMapping`:
`(value − inMin)/(inMax − inMin)` clamped into [0, 1]. -/
def normalizeClamped (value inMin inMax : ℝ) : ℝ :=
  max 0 (min 1 ((value - inMin) / (inMax - inMin)))

/-- `GestureMapper.applyCurve`.  The enumeration is closed, so the
source's `default` arm is unreachable. -/
def applyCurve (value : ℝ) : MappingCurve → ℝ
  | .linear => value
  | .exponential => value * value
  | .logarithmic => Real.log (1 + value * (Real.exp 1 - 1)) / Real.log (Real.exp 1)
  | .easeIn => value * value * value
  | .easeOut => 1 - (1 - value) ^ 3
  | .easeInOut =>
    if value < 0.5 then 4 * value * value * value
    else 1 - (-2 * value + 2) ^ 3 / 2
  | .smoothStep => value * value * (3 - 2 * value)

/-- `GestureMapper.applyMapping`: normalize-and-clamp, curve, map to the
output range, then optional inversion. -/
def applyMapping (value : ℝ) (mapping : GestureMapping) : ℝ :=
  let inMin := mapping.input.inputRange.1
  let inMax := mapping.input.inputRange.2
  let normalized := normalizeClamped value inMin inMax
  let curved := applyCurve normalized (mapping.input.curve.getD .linear)
  let outMin := mapping.output.outputRange.1
  let outMax := mapping.output.outputRange.2
  let outputValue := outMin + curved * (outMax - outMin)
  if mapping.output.invert.getD false then outMax - (outputValue - outMin)
  else outputValue

/-- The filter lookup-and-apply step inside the `process` loop body:
`this.filters.get(id)` followed by `filter.filter(raw, ts/1000)`, falling
back to the raw value when no filter is registered; returns the smoothed
value and the updated filter map. -/
def filterLookupStep (ts : ℝ) (filters : List (String × Filter)) (id : String)
    (rawValue : ℝ) : ℝ × List (String × Filter) :=
  match assocGet filters id with
  | some f =>
    let r := f.filter rawValue (ts / 1000)
    (r.1, assocSet filters id r.2)
  | Option.none => (rawValue, filters)

/-- The body of the `process` loop for one `(id, mapping)` registry entry,
threading the mapper and the list of emitted callback triples. -/
def processStep (ts deltaTime : ℝ) (hands : List HandResult)
    (acc : GestureMapper × List (String × String × ℝ))
    (entry : String × GestureMapping) : GestureMapper × List (String × String × ℝ) :=
  let g := acc.1
  let mapping := entry.2
  if !mapping.enabled then acc
  else
    match findHand hands mapping.input.hand with
    | Option.none => acc
    | some hand =>
      let rawValue := extractGestureValue g.previousLandmarks hand.landmarks
        mapping.input hand.handedness deltaTime
      let fr := filterLookupStep ts g.filters entry.1 rawValue
      let smoothedValue := fr.1
      let outputValue := applyMapping smoothedValue mapping
      let st : MappingState :=
        ⟨rawValue, smoothedValue, outputValue, ts⟩
      ({ g with
          filters := fr.2
          states := assocSet g.states entry.1 st
          previousLandmarks :=
            assocSet g.previousLandmarks hand.handedness hand.landmarks },
       acc.2 ++ [(mapping.output.deviceId, mapping.output.parameterName, outputValue)])

/-- `GestureMapper.process`: computes the frame delta, stores the new
timestamp, then runs the loop body over the registry in insertion order. -/
def GestureMapper.process (g : GestureMapper) (result : HandTrackingResult) :
    GestureMapper × List (String × String × ℝ) :=
  let deltaTime := result.timestamp - g.previousTimestamp
  let g2 := { g with previousTimestamp := result.timestamp }
  g2.mappings.foldl (processStep result.timestamp deltaTime result.hands) (g2, [])

/-- `GestureMapper.reset`. -/
def GestureMapper.reset (g : GestureMapper) : GestureMapper :=
  { g with
    filters := g.filters.map (fun p => (p.1, p.2.reset))
    states := g.states.map (fun p => (p.1, (⟨0, 0, 0, 0⟩ : MappingState)))
    previousLandmarks := []
    previousTimestamp := 0 }

/-! ## Helper lemmas -/

theorem assocGet_assocSet_self {κ α : Type} [DecidableEq κ]
    (l : List (κ × α)) (k : κ) (v : α) :
    assocGet (assocSet l k v) k = some v := by
  induction l with
  | nil => simp [assocSet, assocGet]
  | cons hd tl ih =>
    by_cases hk : hd.1 = k
    · simp [assocSet, assocGet, hk]
    · simpa [assocSet, assocGet, hk] using ih

theorem assocGet_assocSet_ne {κ α : Type} [DecidableEq κ]
    (l : List (κ × α)) (k k2 : κ) (v : α) (h : k ≠ k2) :
    assocGet (assocSet l k v) k2 = assocGet l k2 := by
  induction l with
  | nil => simp [assocSet, assocGet, h]
  | cons hd tl ih =>
    by_cases hk : hd.1 = k
    · simp [assocSet, assocGet, hk, h]
    · by_cases hk2 : hd.1 = k2 <;>
        simp [assocSet, assocGet, hk, hk2, ih, Ne.symm h]

theorem applyCurve_zero (c : MappingCurve) : applyCurve 0 c = 0 := by
  cases c
  case linear => simp [applyCurve]
  case exponential => norm_num [applyCurve]
  case logarithmic => norm_num [applyCurve]
  case easeIn => norm_num [applyCurve]
  case easeOut => norm_num [applyCurve]
  case easeInOut =>
    simp only [applyCurve]
    rw [if_pos (by norm_num)]
    norm_num
  case smoothStep => norm_num [applyCurve]

theorem applyCurve_one (c : MappingCurve) : applyCurve 1 c = 1 := by
  cases c
  case linear => simp [applyCurve]
  case exponential => norm_num [applyCurve]
  case logarithmic =>
    simp only [applyCurve]
    rw [show (1 : ℝ) + 1 * (Real.exp 1 - 1) = Real.exp 1 by ring, Real.log_exp]
    norm_num
  case easeIn => norm_num [applyCurve]
  case easeOut => norm_num [applyCurve]
  case easeInOut =>
    simp only [applyCurve]
    rw [if_neg (by norm_num)]
    norm_num
  case smoothStep => norm_num [applyCurve]

theorem exp_one_sub_one_nonneg : (0 : ℝ) ≤ Real.exp 1 - 1 := by
  have h := Real.add_one_le_exp (1 : ℝ)
  linarith

theorem applyCurve_nonneg (t : ℝ) (c : MappingCurve) (h0 : 0 ≤ t) (h1 : t ≤ 1) :
    0 ≤ applyCurve t c := by
  cases c with
  | linear => simpa [applyCurve] using h0
  | exponential => simpa [applyCurve] using mul_nonneg h0 h0
  | logarithmic =>
    have harg : (1 : ℝ) ≤ 1 + t * (Real.exp 1 - 1) := by
      nlinarith [exp_one_sub_one_nonneg]
    have hnum : 0 ≤ Real.log (1 + t * (Real.exp 1 - 1)) := Real.log_nonneg harg
    have hden : 0 ≤ Real.log (Real.exp 1) := by rw [Real.log_exp]; norm_num
    simpa [applyCurve] using div_nonneg hnum hden
  | easeIn => simpa [applyCurve] using mul_nonneg (mul_nonneg h0 h0) h0
  | easeOut =>
    have hu : (1 - t) ^ 3 ≤ 1 := pow_le_one₀ (by linarith) (by linarith)
    simp only [applyCurve]
    linarith
  | easeInOut =>
    simp only [applyCurve]
    by_cases hlt : t < 0.5
    · rw [if_pos hlt]
      nlinarith [mul_nonneg (mul_nonneg h0 h0) h0]
    · rw [if_neg hlt]
      have hge : (0.5 : ℝ) ≤ t := not_lt.mp hlt
      have hu : (-2 * t + 2) ^ 3 ≤ 1 :=
        pow_le_one₀ (by linarith) (by linarith)
      linarith
  | smoothStep =>
    simp only [applyCurve]
    nlinarith [mul_nonneg h0 h0, mul_nonneg (mul_nonneg h0 h0) h0]

theorem applyCurve_le_one (t : ℝ) (c : MappingCurve) (h0 : 0 ≤ t) (h1 : t ≤ 1) :
    applyCurve t c ≤ 1 := by
  cases c with
  | linear => simpa [applyCurve] using h1
  | exponential => simp only [applyCurve]; nlinarith
  | logarithmic =>
    have hpos : (0 : ℝ) < 1 + t * (Real.exp 1 - 1) := by
      nlinarith [exp_one_sub_one_nonneg]
    have hle : 1 + t * (Real.exp 1 - 1) ≤ Real.exp 1 := by
      nlinarith [exp_one_sub_one_nonneg]
    have hnum : Real.log (1 + t * (Real.exp 1 - 1)) ≤ Real.log (Real.exp 1) :=
      Real.log_le_log hpos hle
    simp only [applyCurve, Real.log_exp] at hnum ⊢
    linarith
  | easeIn => simp only [applyCurve]; nlinarith
  | easeOut =>
    have hu : 0 ≤ (1 - t) ^ 3 := pow_nonneg (by linarith) 3
    simp only [applyCurve]; linarith
  | easeInOut =>
    simp only [applyCurve]
    by_cases hlt : t < 0.5
    · rw [if_pos hlt]
      nlinarith [mul_nonneg (by linarith : (0 : ℝ) ≤ 1 / 2 - t) (mul_nonneg h0 h0),
        mul_nonneg (by linarith : (0 : ℝ) ≤ 1 / 2 - t) h0]
    · rw [if_neg hlt]
      have hu : 0 ≤ (-2 * t + 2) ^ 3 := pow_nonneg (by linarith) 3
      linarith
  | smoothStep =>
    simp only [applyCurve]
    nlinarith [sq_nonneg (1 - t), mul_nonneg (mul_nonneg h0 h0) h0]

theorem normalizeClamped_nonneg (v a b : ℝ) : 0 ≤ normalizeClamped v a b :=
  le_max_left 0 _

theorem normalizeClamped_le_one (v a b : ℝ) : normalizeClamped v a b ≤ 1 :=
  max_le (by norm_num) (min_le_left 1 _)

/-! ## Claim theorems: curve mapper -/

/-- C4: every curve variant satisfies f(0)=0 and f(1)=1; smooth-step also
satisfies f(1/2)=1/2 and is non-decreasing on [0,1]; ease-in-out satisfies
f(1/2)=1/2. -/
theorem curve_boundary_laws (c : MappingCurve) (a b : ℝ)
    (h0 : 0 ≤ a) (hab : a ≤ b) (hb1 : b ≤ 1) :
    applyCurve 0 c = 0 ∧ applyCurve 1 c = 1 ∧
    applyCurve (1 / 2) .smoothStep = 1 / 2 ∧
    applyCurve a .smoothStep ≤ applyCurve b .smoothStep ∧
    applyCurve (1 / 2) .easeInOut = 1 / 2 := by
  refine ⟨applyCurve_zero c, applyCurve_one c, ?_, ?_, ?_⟩
  · simp only [applyCurve]; norm_num
  · have ha1 : a ≤ 1 := le_trans hab hb1
    have hb0 : 0 ≤ b := le_trans h0 hab
    simp only [applyCurve]
    nlinarith [mul_nonneg (sub_nonneg.2 hab) (mul_nonneg h0 (sub_nonneg.2 ha1)),
      mul_nonneg (sub_nonneg.2 hab) (mul_nonneg hb0 (sub_nonneg.2 hb1)),
      mul_nonneg (sub_nonneg.2 hab) (sq_nonneg (a - b))]
  · simp only [applyCurve]
    rw [if_neg (by norm_num)]
    norm_num

/-- Witness for C4 at the logarithmic curve and the pair (0, 1). -/
theorem curve_boundary_laws_witness :
    (0 : ℝ) ≤ 0 ∧ (0 : ℝ) ≤ 1 ∧ (1 : ℝ) ≤ 1 ∧
    (applyCurve 0 .logarithmic = 0 ∧ applyCurve 1 .logarithmic = 1 ∧
     applyCurve (1 / 2) .smoothStep = 1 / 2 ∧
     applyCurve 0 .smoothStep ≤ applyCurve 1 .smoothStep ∧
     applyCurve (1 / 2) .easeInOut = 1 / 2) :=
  ⟨by norm_num, by norm_num, by norm_num,
   curve_boundary_laws .logarithmic 0 1 (by norm_num) (by norm_num) (by norm_num)⟩

/-- The range-remap-then-invert tail of `applyMapping` stays inside the
declared output range whenever the curved value is in [0,1]. -/
theorem outRange_bound (c o1 o2 : ℝ) (hc0 : 0 ≤ c) (hc1 : c ≤ 1) (inv : Bool) :
    min o1 o2 ≤ (if inv then o2 - (o1 + c * (o2 - o1) - o1) else o1 + c * (o2 - o1)) ∧
    (if inv then o2 - (o1 + c * (o2 - o1) - o1) else o1 + c * (o2 - o1)) ≤ max o1 o2 := by
  cases inv <;> simp only [if_true, if_false, Bool.false_eq_true, Bool.true_eq_false] <;>
    rcases le_total o1 o2 with ho | ho
  · rw [min_eq_left ho, max_eq_right ho]
    constructor <;>
      nlinarith [mul_nonneg hc0 (sub_nonneg.2 ho),
        mul_nonneg (sub_nonneg.2 hc1) (sub_nonneg.2 ho)]
  · rw [min_eq_right ho, max_eq_left ho]
    constructor <;>
      nlinarith [mul_nonneg hc0 (sub_nonneg.2 ho),
        mul_nonneg (sub_nonneg.2 hc1) (sub_nonneg.2 ho)]
  · rw [min_eq_left ho, max_eq_right ho]
    constructor <;>
      nlinarith [mul_nonneg hc0 (sub_nonneg.2 ho),
        mul_nonneg (sub_nonneg.2 hc1) (sub_nonneg.2 ho)]
  · rw [min_eq_right ho, max_eq_left ho]
    constructor <;>
      nlinarith [mul_nonneg hc0 (sub_nonneg.2 ho),
        mul_nonneg (sub_nonneg.2 hc1) (sub_nonneg.2 ho)]

/-- C1: with a declared increasing input range, the pre-curve normalized
value is exactly 0 below the range and exactly 1 above it, and the final
mapped value lies within [min(outMin,outMax), max(outMin,outMax)], invert
flag or not. -/
theorem mapping_clamp_and_output_range (m : GestureMapping) (v : ℝ)
    (h : m.input.inputRange.1 < m.input.inputRange.2) :
    (v < m.input.inputRange.1 →
      normalizeClamped v m.input.inputRange.1 m.input.inputRange.2 = 0) ∧
    (m.input.inputRange.2 < v →
      normalizeClamped v m.input.inputRange.1 m.input.inputRange.2 = 1) ∧
    min m.output.outputRange.1 m.output.outputRange.2 ≤ applyMapping v m ∧
    applyMapping v m ≤ max m.output.outputRange.1 m.output.outputRange.2 := by
  have hden : 0 < m.input.inputRange.2 - m.input.inputRange.1 := sub_pos.2 h
  refine ⟨?_, ?_, ?_, ?_⟩
  · intro hv
    have hneg : (v - m.input.inputRange.1) / (m.input.inputRange.2 - m.input.inputRange.1) < 0 :=
      div_neg_of_neg_of_pos (by linarith) hden
    unfold normalizeClamped
    rw [min_eq_right (by linarith), max_eq_left (by linarith)]
  · intro hv
    have hgt : 1 < (v - m.input.inputRange.1) / (m.input.inputRange.2 - m.input.inputRange.1) :=
      (one_lt_div hden).2 (by linarith)
    unfold normalizeClamped
    rw [min_eq_left hgt.le, max_eq_right (by norm_num)]
  · have ht0 := normalizeClamped_nonneg v m.input.inputRange.1 m.input.inputRange.2
    have ht1 := normalizeClamped_le_one v m.input.inputRange.1 m.input.inputRange.2
    exact (outRange_bound _ _ _
      (applyCurve_nonneg _ (m.input.curve.getD .linear) ht0 ht1)
      (applyCurve_le_one _ (m.input.curve.getD .linear) ht0 ht1)
      (m.output.invert.getD false)).1
  · have ht0 := normalizeClamped_nonneg v m.input.inputRange.1 m.input.inputRange.2
    have ht1 := normalizeClamped_le_one v m.input.inputRange.1 m.input.inputRange.2
    exact (outRange_bound _ _ _
      (applyCurve_nonneg _ (m.input.curve.getD .linear) ht0 ht1)
      (applyCurve_le_one _ (m.input.curve.getD .linear) ht0 ht1)
      (m.output.invert.getD false)).2

/-- A concrete smooth-step mapping with inverted output used by witnesses. -/
def sampleMappingInv : GestureMapping :=
  { id := "sample-inv"
    name := "sample inverted"
    enabled := true
    input := { type := .wrist_position_x, hand := .any,
               inputRange := (2, 6), curve := some .smoothStep }
    output := { deviceId := "dev", parameterName := "par",
                outputRange := (1, 3), invert := some true }
    smoothing := { type := .none } }

/-- Witness for C1: the inverted smooth-step sample mapping at the raw
value 100 (above the input range). -/
theorem mapping_clamp_and_output_range_witness :
    sampleMappingInv.input.inputRange.1 < sampleMappingInv.input.inputRange.2 ∧
    ((100 : ℝ) < sampleMappingInv.input.inputRange.1 →
      normalizeClamped 100 sampleMappingInv.input.inputRange.1
        sampleMappingInv.input.inputRange.2 = 0) ∧
    (sampleMappingInv.input.inputRange.2 < (100 : ℝ) →
      normalizeClamped 100 sampleMappingInv.input.inputRange.1
        sampleMappingInv.input.inputRange.2 = 1) ∧
    min sampleMappingInv.output.outputRange.1 sampleMappingInv.output.outputRange.2 ≤
      applyMapping 100 sampleMappingInv ∧
    applyMapping 100 sampleMappingInv ≤
      max sampleMappingInv.output.outputRange.1 sampleMappingInv.output.outputRange.2 :=
  ⟨by norm_num [sampleMappingInv],
   mapping_clamp_and_output_range sampleMappingInv 100 (by norm_num [sampleMappingInv])⟩

/-- C5: with a non-degenerate input range, the full transform sends inMin
and inMax to the output-range endpoints, swapped when invert is set. -/
theorem mapping_invert_law (m : GestureMapping)
    (h : m.input.inputRange.1 ≠ m.input.inputRange.2) :
    (m.output.invert.getD false = false →
      applyMapping m.input.inputRange.1 m = m.output.outputRange.1 ∧
      applyMapping m.input.inputRange.2 m = m.output.outputRange.2) ∧
    (m.output.invert.getD false = true →
      applyMapping m.input.inputRange.1 m = m.output.outputRange.2 ∧
      applyMapping m.input.inputRange.2 m = m.output.outputRange.1) := by
  have hn0 : normalizeClamped m.input.inputRange.1 m.input.inputRange.1
      m.input.inputRange.2 = 0 := by
    unfold normalizeClamped
    rw [sub_self, zero_div, min_eq_right (by norm_num), max_eq_left le_rfl]
  have hn1 : normalizeClamped m.input.inputRange.2 m.input.inputRange.1
      m.input.inputRange.2 = 1 := by
    unfold normalizeClamped
    rw [div_self (sub_ne_zero.2 (Ne.symm h)), min_eq_left le_rfl,
      max_eq_right (by norm_num)]
  constructor <;> intro hinv <;> constructor <;>
    simp [applyMapping, hn0, hn1, hinv, applyCurve_zero, applyCurve_one]

/-- A concrete linear mapping without inversion used by witnesses. -/
def sampleMappingPlain : GestureMapping :=
  { id := "sample-plain"
    name := "sample plain"
    enabled := true
    input := { type := .wrist_position_y, hand := .any, inputRange := (0, 1) }
    output := { deviceId := "dev", parameterName := "par", outputRange := (2, 5) }
    smoothing := { type := .none } }

/-- Witness for C5 on the plain sample mapping (invert unset). -/
theorem mapping_invert_law_witness :
    sampleMappingPlain.input.inputRange.1 ≠ sampleMappingPlain.input.inputRange.2 ∧
    ((sampleMappingPlain.output.invert.getD false = false →
      applyMapping sampleMappingPlain.input.inputRange.1 sampleMappingPlain =
        sampleMappingPlain.output.outputRange.1 ∧
      applyMapping sampleMappingPlain.input.inputRange.2 sampleMappingPlain =
        sampleMappingPlain.output.outputRange.2) ∧
    (sampleMappingPlain.output.invert.getD false = true →
      applyMapping sampleMappingPlain.input.inputRange.1 sampleMappingPlain =
        sampleMappingPlain.output.outputRange.2 ∧
      applyMapping sampleMappingPlain.input.inputRange.2 sampleMappingPlain =
        sampleMappingPlain.output.outputRange.1)) :=
  ⟨by norm_num [sampleMappingPlain],
   mapping_invert_law sampleMappingPlain (by norm_num [sampleMappingPlain])⟩

/-! ## Claim theorems: adaptive (one-euro) filter -/

/-- The spec's enumerated steps for a call of the adaptive filter after the
first: dt = max(now − lastTime, 1e−6); dx = (value − lastValue)/dt; the
derivative smoothed with alpha(dCutoff, dt); adaptive cutoff =
minCutoff + beta·|smoothed derivative|; the value filter rerun with
alpha(adaptiveCutoff, dt), where alpha(cutoff, dt) = 1/(1 + τ/dt) and
τ = 1/(2π·cutoff), and each internal exponential filter computes
y ← α·x + (1−α)·y (bootstrapping to its first input). -/
def oneEuroSubsequentSpec (minCutoff beta dCutoff lastTime lastValue : ℝ)
    (dState : Option ℝ) (xState : ℝ) (value now : ℝ) : ℝ :=
  let dt := max (now - lastTime) (1e-6 : ℝ)
  let dx := (value - lastValue) / dt
  let aD := 1 / (1 + (1 / (2 * Real.pi * dCutoff)) / dt)
  let smoothedDx :=
    match dState with
    | Option.none => dx
    | some d => aD * dx + (1 - aD) * d
  let cutoff := minCutoff + beta * |smoothedDx|
  let aX := 1 / (1 + (1 / (2 * Real.pi * cutoff)) / dt)
  aX * value + (1 - aX) * xState

/-- C2: after the first call, the one-euro filter's output is exactly the
spec's enumerated composition of steps. -/
theorem oneEuro_subsequent_step (s : OneEuroState) (value now lt lv y : ℝ)
    (h1 : s.lastTime = some lt) (h2 : s.lastValue = some lv)
    (h3 : s.xFilter.y = some y) :
    (s.filter value now).1 =
      oneEuroSubsequentSpec s.minCutoff s.beta s.dCutoff lt lv
        s.dxFilter.y y value now := by
  cases hdx : s.dxFilter.y with
  | none =>
    simp [OneEuroState.filter, oneEuroSubsequentSpec, oneEuroAlpha,
      LowPassFilterInternal.filter, LowPassFilterInternal.setAlpha, h1, h2, h3, hdx]
  | some d =>
    simp [OneEuroState.filter, oneEuroSubsequentSpec, oneEuroAlpha,
      LowPassFilterInternal.filter, LowPassFilterInternal.setAlpha, h1, h2, h3, hdx]

/-- A concrete one-euro filter state that has already seen one sample. -/
def sampleOneEuroState : OneEuroState :=
  { minCutoff := 1
    beta := 2
    dCutoff := 1
    xFilter := ⟨some 5, 1 / 2⟩
    dxFilter := ⟨Option.none, 1 / 2⟩
    lastTime := some 0
    lastValue := some 3 }

/-- Witness for C2 on the concrete state. -/
theorem oneEuro_subsequent_step_witness :
    sampleOneEuroState.lastTime = some 0 ∧
    sampleOneEuroState.lastValue = some 3 ∧
    sampleOneEuroState.xFilter.y = some 5 ∧
    (sampleOneEuroState.filter 4 1).1 =
      oneEuroSubsequentSpec sampleOneEuroState.minCutoff sampleOneEuroState.beta
        sampleOneEuroState.dCutoff 0 3 sampleOneEuroState.dxFilter.y 5 4 1 :=
  ⟨rfl, rfl, rfl, oneEuro_subsequent_step sampleOneEuroState 4 1 0 3 5 rfl rfl rfl⟩

/-- C3: a freshly constructed or just-reset one-euro filter returns its
first input unchanged, and its value filter's state becomes that input. -/
theorem oneEuro_first_call_identity :
    (∀ minCutoff beta dCutoff value ts : ℝ,
      ((OneEuroState.init minCutoff beta dCutoff).filter value ts).1 = value ∧
      ((OneEuroState.init minCutoff beta dCutoff).filter value ts).2.xFilter.y =
        some value) ∧
    (∀ (s : OneEuroState) (value ts : ℝ),
      ((s.reset).filter value ts).1 = value ∧
      ((s.reset).filter value ts).2.xFilter.y = some value) := by
  constructor <;> intros <;>
    simp [OneEuroState.init, OneEuroState.reset, OneEuroState.filter,
      LowPassFilterInternal.filter, LowPassFilterInternal.setAlpha,
      LowPassFilterInternal.reset]

/-! ## Claim theorems: exponential smoothing ignores its parameters (C10) -/

/-- Runs a filter over a list of (value, timestamp) samples, returning the
outputs. -/
def Filter.run : Filter → List (ℝ × ℝ) → List ℝ
  | _, [] => []
  | f, (v, t) :: rest =>
    let r := f.filter v t
    r.1 :: Filter.run r.2 rest

/-- C10: the orchestrator never forwards an alpha to the factory, so every
exponential-smoothing mapping gets the default-alpha (0.3) filter; two
exponential smoothing specs always construct identical filters and hence
produce identical outputs on identical inputs. -/
theorem exponential_smoothing_ignores_params (c1 c2 : SmoothingConfig)
    (h1 : c1.type = .exponential) (h2 : c2.type = .exponential) :
    GestureMapper.createFilterForMapping c1 = Filter.exponential Option.none 0.3 ∧
    GestureMapper.createFilterForMapping c1 = GestureMapper.createFilterForMapping c2 ∧
    ∀ inputs : List (ℝ × ℝ),
      (GestureMapper.createFilterForMapping c1).run inputs =
        (GestureMapper.createFilterForMapping c2).run inputs := by
  have key : ∀ c : SmoothingConfig, c.type = .exponential →
      GestureMapper.createFilterForMapping c = Filter.exponential Option.none 0.3 := by
    intro c hc
    simp only [GestureMapper.createFilterForMapping, createFilter, hc,
      SmoothingType.toFilterType, Option.getD]
    norm_num [min_def, max_def]
  refine ⟨key c1 h1, ?_, ?_⟩
  · rw [key c1 h1, key c2 h2]
  · intro inputs
    rw [key c1 h1, key c2 h2]

/-- An exponential smoothing spec with factor 0.2. -/
def expSmoothingA : SmoothingConfig := { type := .exponential, factor := some 0.2 }

/-- An exponential smoothing spec with factor 0.9. -/
def expSmoothingB : SmoothingConfig := { type := .exponential, factor := some 0.9 }

/-- Witness for C10 on two exponential specs with different factors. -/
theorem exponential_smoothing_ignores_params_witness :
    expSmoothingA.type = .exponential ∧ expSmoothingB.type = .exponential ∧
    expSmoothingA.factor ≠ expSmoothingB.factor ∧
    (GestureMapper.createFilterForMapping expSmoothingA =
      Filter.exponential Option.none 0.3 ∧
    GestureMapper.createFilterForMapping expSmoothingA =
      GestureMapper.createFilterForMapping expSmoothingB ∧
    ∀ inputs : List (ℝ × ℝ),
      (GestureMapper.createFilterForMapping expSmoothingA).run inputs =
        (GestureMapper.createFilterForMapping expSmoothingB).run inputs) :=
  ⟨rfl, rfl, by norm_num [expSmoothingA, expSmoothingB],
   exponential_smoothing_ignores_params expSmoothingA expSmoothingB rfl rfl⟩

/-! ## Claim theorems: registry misuse is silent, not an error (C6) -/

/-- C6 (amended): the registry operations are total and silent: adding an
already-registered id overwrites the stored mapping, updating an unknown id
returns the mapper unchanged, and reading the state of an unknown id yields
`none`; no operation signals a failure. -/
theorem registry_ops_are_silent :
    (∀ (g : GestureMapper) (m : GestureMapping),
      assocGet (g.addMapping m).mappings m.id = some m) ∧
    (∀ (g : GestureMapper) (id : String) (u : MappingUpdate),
      assocGet g.mappings id = Option.none → g.updateMapping id u = g) ∧
    (∀ (g : GestureMapper) (id : String),
      assocGet g.states id = Option.none → g.getState id = Option.none) := by
  refine ⟨?_, ?_, ?_⟩
  · intro g m
    exact assocGet_assocSet_self g.mappings m.id m
  · intro g id u h
    simp [GestureMapper.updateMapping, h]
  · intro g id h
    exact h

/-- The id of a mapping that is never registered. -/
def unknownId : String := "missing"

/-- Witness for C6 (amended) on the empty mapper and a sample mapping. -/
theorem registry_ops_are_silent_witness :
    assocGet GestureMapper.init.mappings unknownId = Option.none ∧
    GestureMapper.init.updateMapping unknownId {} = GestureMapper.init ∧
    assocGet GestureMapper.init.states unknownId = Option.none ∧
    GestureMapper.init.getState unknownId = Option.none ∧
    assocGet (GestureMapper.init.addMapping sampleMappingPlain).mappings
      sampleMappingPlain.id = some sampleMappingPlain :=
  ⟨rfl,
   registry_ops_are_silent.2.1 GestureMapper.init unknownId {} rfl,
   rfl,
   registry_ops_are_silent.2.2 GestureMapper.init unknownId rfl,
   registry_ops_are_silent.1 GestureMapper.init sampleMappingPlain⟩

/-- A mapping registered first under the id "dup". -/
def dupMappingFirst : GestureMapping :=
  { id := "dup"
    name := "first"
    enabled := true
    input := { type := .wrist_position_x, hand := .any, inputRange := (0, 1) }
    output := { deviceId := "dev", parameterName := "par", outputRange := (0, 1) }
    smoothing := { type := .none } }

/-- A different mapping registered under the same id "dup". -/
def dupMappingSecond : GestureMapping :=
  { id := "dup"
    name := "second"
    enabled := true
    input := { type := .wrist_position_y, hand := .any, inputRange := (0, 1) }
    output := { deviceId := "dev", parameterName := "par", outputRange := (0, 1) }
    smoothing := { type := .none } }

/-- Counterexample to C6 as stated: registering a duplicate id silently
replaces the stored mapping, and update/state accessors with an unknown id
silently no-op — no operation surfaces a failure. -/
theorem registry_misuse_not_an_error_counterexample :
    (assocGet ((GestureMapper.init.addMapping dupMappingFirst).addMapping
        dupMappingSecond).mappings dupMappingFirst.id).map GestureMapping.name =
      some dupMappingSecond.name ∧
    dupMappingSecond.name ≠ dupMappingFirst.name ∧
    GestureMapper.init.updateMapping unknownId {} = GestureMapper.init ∧
    GestureMapper.init.getState unknownId = Option.none := by
  refine ⟨rfl, ?_, rfl, rfl⟩
  intro h
  simp [dupMappingFirst, dupMappingSecond] at h

/-! ## Claim theorems: velocity extraction guard (C8) -/

/-- C8 (amended): velocity extraction returns 0 exactly when no previous
landmark set is cached for the handedness or the elapsed time is exactly 0;
with a cache and any nonzero dt (negative included) it returns the absolute
finite difference of the wrist coordinate. -/
theorem velocity_guard_and_formula (previousLandmarks : List (Handedness × Landmarks))
    (landmarks : Landmarks) (input : GestureInput) (handedness : Handedness) (dt : ℝ)
    (ht : input.type = .velocity_x ∨ input.type = .velocity_y) :
    ((assocGet previousLandmarks handedness = Option.none ∨ dt = 0) →
      extractGestureValue previousLandmarks landmarks input handedness dt = 0) ∧
    (∀ prev, assocGet previousLandmarks handedness = some prev → dt ≠ 0 →
      extractGestureValue previousLandmarks landmarks input handedness dt =
        (if input.type = .velocity_x then
          |((landmarks LandmarkIndex.WRIST).x - (prev LandmarkIndex.WRIST).x) / dt|
        else
          |((landmarks LandmarkIndex.WRIST).y - (prev LandmarkIndex.WRIST).y) / dt|)) := by
  rcases ht with ht | ht
  · constructor
    · rintro (hp | hdt)
      · simp [extractGestureValue, ht, hp]
      · cases hp : assocGet previousLandmarks handedness <;>
          simp [extractGestureValue, ht, hp, hdt]
    · intro prev hp hdt
      simp [extractGestureValue, ht, hp, hdt]
  · constructor
    · rintro (hp | hdt)
      · simp [extractGestureValue, ht, hp]
      · cases hp : assocGet previousLandmarks handedness <;>
          simp [extractGestureValue, ht, hp, hdt]
    · intro prev hp hdt
      simp [extractGestureValue, ht, hp, hdt]

/-- Landmarks of the cached previous frame for the C8 inputs: all points at
the origin. -/
def prevFrameLm : Landmarks := fun _ => ⟨0, 0, 0⟩

/-- Landmarks of the current frame for the C8 inputs: all points at x = 1. -/
def currFrameLm : Landmarks := fun _ => ⟨1, 0, 0⟩

/-- A velocity_x gesture input. -/
def velocityXInput : GestureInput :=
  { type := .velocity_x, hand := .any, inputRange := (0, 1) }

/-- Witness for C8 (amended) at dt = −1 with a cached previous frame. -/
theorem velocity_guard_and_formula_witness :
    (velocityXInput.type = .velocity_x ∨ velocityXInput.type = .velocity_y) ∧
    assocGet [(Handedness.Left, prevFrameLm)] Handedness.Left = some prevFrameLm ∧
    (-1 : ℝ) ≠ 0 ∧
    extractGestureValue [(Handedness.Left, prevFrameLm)] currFrameLm velocityXInput
        Handedness.Left (-1) =
      (if velocityXInput.type = .velocity_x then
        |((currFrameLm LandmarkIndex.WRIST).x - (prevFrameLm LandmarkIndex.WRIST).x) / (-1)|
      else
        |((currFrameLm LandmarkIndex.WRIST).y - (prevFrameLm LandmarkIndex.WRIST).y) / (-1)|) :=
  ⟨Or.inl rfl, rfl, by norm_num,
   (velocity_guard_and_formula [(Handedness.Left, prevFrameLm)] currFrameLm
     velocityXInput Handedness.Left (-1) (Or.inl rfl)).2 prevFrameLm rfl (by norm_num)⟩

/-- Counterexample to C8 as stated: at dt = −1 (≤ 0) with a cached previous
frame one unit away, the extraction returns 1, not 0. -/
theorem velocity_negative_dt_counterexample :
    extractGestureValue [(Handedness.Left, prevFrameLm)] currFrameLm velocityXInput
      Handedness.Left (-1) = 1 ∧
    (-1 : ℝ) ≤ 0 ∧ (1 : ℝ) ≠ 0 := by
  refine ⟨?_, by norm_num, by norm_num⟩
  simp only [extractGestureValue, velocityXInput, assocGet, if_pos rfl]
  norm_num [prevFrameLm, currFrameLm]

/-! ## Claim theorems: finger spread average (C9) -/

/-- Closed form of the finger-spread loop: the three adjacent-pair angle
contributions (a degenerate pair contributing 0) summed and divided by 3,
the divisor being the fixed pair count, not the number of non-degenerate
pairs. -/
def fingerSpreadClosedForm (lm : Landmarks) : ℝ :=
  (spreadContribution (lm LandmarkIndex.INDEX_TIP) (lm LandmarkIndex.INDEX_MCP)
      (lm LandmarkIndex.MIDDLE_TIP) (lm LandmarkIndex.MIDDLE_MCP) +
   spreadContribution (lm LandmarkIndex.MIDDLE_TIP) (lm LandmarkIndex.MIDDLE_MCP)
      (lm LandmarkIndex.RING_TIP) (lm LandmarkIndex.RING_MCP) +
   spreadContribution (lm LandmarkIndex.RING_TIP) (lm LandmarkIndex.RING_MCP)
      (lm LandmarkIndex.PINKY_TIP) (lm LandmarkIndex.PINKY_MCP)) / 3

/-- The finger-spread loop unrolled to its closed form. -/
theorem fingerSpread_foldl_eq (lm : Landmarks) :
    getFingerSpread lm = fingerSpreadClosedForm lm := by
  simp only [getFingerSpread, fingerSpreadClosedForm,
    show List.range 3 = [0, 1, 2] from rfl, List.foldl_cons, List.foldl_nil,
    List.getD, List.length_cons, List.length_nil]
  norm_num

/-- C9 (amended): for every landmark set, finger spread is the sum of the
three adjacent-pair angles (degenerate pairs contributing 0) divided by the
fixed divisor 3. -/
theorem finger_spread_divides_by_three (lm : Landmarks) :
    getFingerSpread lm = fingerSpreadClosedForm lm :=
  fingerSpread_foldl_eq lm

/-- Landmarks where the index pair is degenerate (fingertip equals the
knuckle) while middle, ring and pinky point along (1,0), (0,1) and (−1,0):
two right-angle pairs remain. -/
def degenerateSpreadLm : Landmarks := fun i =>
  if i.val = 12 then ⟨1, 0, 0⟩
  else if i.val = 16 then ⟨0, 1, 0⟩
  else if i.val = 20 then ⟨-1, 0, 0⟩
  else ⟨0, 0, 0⟩

/-- Counterexample to C9 as stated: with one degenerate pair the code still
divides by 3 and returns π/3, not the skip-adjusted average π/2. -/
theorem finger_spread_divisor_counterexample :
    getFingerSpread degenerateSpreadLm = Real.pi / 3 ∧
    getFingerSpread degenerateSpreadLm ≠ Real.pi / 2 := by
  have eIT : degenerateSpreadLm LandmarkIndex.INDEX_TIP = ⟨0, 0, 0⟩ := rfl
  have eIM : degenerateSpreadLm LandmarkIndex.INDEX_MCP = ⟨0, 0, 0⟩ := rfl
  have eMT : degenerateSpreadLm LandmarkIndex.MIDDLE_TIP = ⟨1, 0, 0⟩ := rfl
  have eMM : degenerateSpreadLm LandmarkIndex.MIDDLE_MCP = ⟨0, 0, 0⟩ := rfl
  have eRT : degenerateSpreadLm LandmarkIndex.RING_TIP = ⟨0, 1, 0⟩ := rfl
  have eRM : degenerateSpreadLm LandmarkIndex.RING_MCP = ⟨0, 0, 0⟩ := rfl
  have ePT : degenerateSpreadLm LandmarkIndex.PINKY_TIP = ⟨-1, 0, 0⟩ := rfl
  have ePM : degenerateSpreadLm LandmarkIndex.PINKY_MCP = ⟨0, 0, 0⟩ := rfl
  have t1 : spreadContribution (⟨0, 0, 0⟩ : Landmark) ⟨0, 0, 0⟩ ⟨1, 0, 0⟩ ⟨0, 0, 0⟩ = 0 := by
    norm_num [spreadContribution, Real.sqrt_zero]
  have t2 : spreadContribution (⟨1, 0, 0⟩ : Landmark) ⟨0, 0, 0⟩ ⟨0, 1, 0⟩ ⟨0, 0, 0⟩ =
      Real.pi / 2 := by
    norm_num [spreadContribution, Real.sqrt_one, Real.arccos_zero]
  have t3 : spreadContribution (⟨0, 1, 0⟩ : Landmark) ⟨0, 0, 0⟩ ⟨-1, 0, 0⟩ ⟨0, 0, 0⟩ =
      Real.pi / 2 := by
    norm_num [spreadContribution, Real.sqrt_one, Real.arccos_zero]
  have h1 : getFingerSpread degenerateSpreadLm = Real.pi / 3 := by
    rw [fingerSpread_foldl_eq]
    unfold fingerSpreadClosedForm
    rw [eIT, eIM, eMT, eMM, eRT, eRM, ePT, ePM, t1, t2, t3]
    ring
  refine ⟨h1, ?_⟩
  rw [h1]
  intro h
  have := Real.pi_pos
  linarith

/-! ## Claim theorems: shared velocity cache inside one frame (C7) -/

/-- Explicit form of `processStep` on an enabled entry whose hand selector
matches a hand: it writes the state record keyed by the entry id and
overwrites the handedness-keyed previous-landmark cache with the current
frame's landmarks. -/
theorem processStep_matched (ts dt : ℝ) (hands : List HandResult)
    (acc : GestureMapper × List (String × String × ℝ))
    (id : String) (m : GestureMapping) (hand : HandResult)
    (hen : m.enabled = true) (hfind : findHand hands m.input.hand = some hand) :
    processStep ts dt hands acc (id, m) =
      ({ acc.1 with
          filters := (filterLookupStep ts acc.1.filters id
            (extractGestureValue acc.1.previousLandmarks hand.landmarks m.input
              hand.handedness dt)).2
          states := assocSet acc.1.states id
            ⟨extractGestureValue acc.1.previousLandmarks hand.landmarks m.input
                hand.handedness dt,
              (filterLookupStep ts acc.1.filters id
                (extractGestureValue acc.1.previousLandmarks hand.landmarks m.input
                  hand.handedness dt)).1,
              applyMapping (filterLookupStep ts acc.1.filters id
                (extractGestureValue acc.1.previousLandmarks hand.landmarks m.input
                  hand.handedness dt)).1 m,
              ts⟩
          previousLandmarks :=
            assocSet acc.1.previousLandmarks hand.handedness hand.landmarks },
       acc.2 ++ [(m.output.deviceId, m.output.parameterName,
         applyMapping (filterLookupStep ts acc.1.filters id
           (extractGestureValue acc.1.previousLandmarks hand.landmarks m.input
             hand.handedness dt)).1 m)]) := by
  simp [processStep, hen, hfind]

/-- `processStep` on a velocity mapping whose handedness-keyed cache entry
already holds the current frame's landmarks records a raw value of 0. -/
theorem processStep_velocity_zero (ts dt : ℝ) (hands : List HandResult)
    (acc : GestureMapper × List (String × String × ℝ))
    (id : String) (m : GestureMapping) (hand : HandResult)
    (hen : m.enabled = true) (hfind : findHand hands m.input.hand = some hand)
    (ht : m.input.type = .velocity_x ∨ m.input.type = .velocity_y)
    (hprev : assocGet acc.1.previousLandmarks hand.handedness = some hand.landmarks) :
    (assocGet (processStep ts dt hands acc (id, m)).1.states id).map
      MappingState.rawValue = some 0 := by
  rw [processStep_matched ts dt hands acc id m hand hen hfind]
  have hraw : extractGestureValue acc.1.previousLandmarks hand.landmarks m.input
      hand.handedness dt = 0 := by
    rcases ht with ht | ht <;> by_cases hdt : dt = 0 <;>
      simp [extractGestureValue, ht, hdt, hprev]
  simp [assocGet_assocSet_self, hraw]

/-- C7 (amended): when two enabled mappings target the same hand and the
second is a velocity mapping, processing one frame lets the first mapping
overwrite the handedness-keyed previous-landmark cache with the current
frame's landmarks before the second runs, so the second velocity mapping's
raw value is computed against the current frame and is 0. -/
theorem second_velocity_mapping_reads_current_frame
    (g : GestureMapper) (frame : HandTrackingResult) (hand : HandResult)
    (id1 id2 : String) (m1 m2 : GestureMapping)
    (hh : frame.hands = [hand])
    (hm : g.mappings = [(id1, m1), (id2, m2)])
    (he1 : m1.enabled = true) (he2 : m2.enabled = true)
    (hs1 : m1.input.hand = .any) (hs2 : m2.input.hand = .any)
    (ht : m2.input.type = .velocity_x ∨ m2.input.type = .velocity_y) :
    ((g.process frame).1.getState id2).map MappingState.rawValue = some 0 := by
  have key : ∀ acc0 : GestureMapper × List (String × String × ℝ),
      ((List.foldl
        (processStep frame.timestamp (frame.timestamp - g.previousTimestamp) frame.hands)
        acc0 [(id1, m1), (id2, m2)]).1.getState id2).map
          MappingState.rawValue = some 0 := by
    intro acc0
    simp only [List.foldl_cons, List.foldl_nil]
    have hprev : assocGet (processStep frame.timestamp
        (frame.timestamp - g.previousTimestamp) frame.hands acc0
        (id1, m1)).1.previousLandmarks hand.handedness = some hand.landmarks := by
      rw [processStep_matched frame.timestamp (frame.timestamp - g.previousTimestamp)
        frame.hands acc0 id1 m1 hand he1 (by rw [hs1, hh]; rfl)]
      exact assocGet_assocSet_self _ _ _
    exact processStep_velocity_zero frame.timestamp
      (frame.timestamp - g.previousTimestamp) frame.hands _ id2 m2 hand he2
      (by rw [hs2, hh]; rfl) ht hprev
  have hfold : g.process frame = List.foldl
      (processStep frame.timestamp (frame.timestamp - g.previousTimestamp) frame.hands)
      ({ g with previousTimestamp := frame.timestamp }, []) [(id1, m1), (id2, m2)] := by
    unfold GestureMapper.process
    rw [hm]
  rw [hfold]
  exact key _

/-- An enabled velocity_x mapping with pass-through smoothing. -/
def velMapping1 : GestureMapping :=
  { id := "vel-x"
    name := "velocity x"
    enabled := true
    input := { type := .velocity_x, hand := .any, inputRange := (0, 1) }
    output := { deviceId := "dev", parameterName := "vx", outputRange := (0, 1) }
    smoothing := { type := .none } }

/-- An enabled velocity_y mapping with pass-through smoothing. -/
def velMapping2 : GestureMapping :=
  { id := "vel-y"
    name := "velocity y"
    enabled := true
    input := { type := .velocity_y, hand := .any, inputRange := (0, 1) }
    output := { deviceId := "dev", parameterName := "vy", outputRange := (0, 1) }
    smoothing := { type := .none } }

/-- A mapper with the two velocity mappings registered in order. -/
def velMapper : GestureMapper :=
  (GestureMapper.init.addMapping velMapping1).addMapping velMapping2

/-- The tracked left hand at the first frame: all landmarks at the origin. -/
def handT1 : HandResult :=
  { landmarks := fun _ => ⟨0, 0, 0⟩, handedness := .Left, confidence := 1 }

/-- The tracked left hand at the second frame: all landmarks at (1,1,0). -/
def handT2 : HandResult :=
  { landmarks := fun _ => ⟨1, 1, 0⟩, handedness := .Left, confidence := 1 }

/-- First frame, at timestamp 1. -/
def frameT1 : HandTrackingResult := { hands := [handT1], timestamp := 1 }

/-- Second frame, at timestamp 2. -/
def frameT2 : HandTrackingResult := { hands := [handT2], timestamp := 2 }

/-- Witness for C7 (amended) on the two-velocity-mapping mapper. -/
theorem second_velocity_mapping_reads_current_frame_witness :
    frameT2.hands = [handT2] ∧
    velMapper.mappings = [(velMapping1.id, velMapping1), (velMapping2.id, velMapping2)] ∧
    velMapping1.enabled = true ∧ velMapping2.enabled = true ∧
    velMapping1.input.hand = .any ∧ velMapping2.input.hand = .any ∧
    (velMapping2.input.type = .velocity_x ∨ velMapping2.input.type = .velocity_y) ∧
    ((velMapper.process frameT2).1.getState velMapping2.id).map
      MappingState.rawValue = some 0 :=
  ⟨rfl, rfl, rfl, rfl, rfl, rfl, Or.inr rfl,
   second_velocity_mapping_reads_current_frame velMapper frameT2 handT2
     velMapping1.id velMapping2.id velMapping1 velMapping2 rfl rfl rfl rfl rfl rfl
     (Or.inr rfl)⟩

theorem velIds_distinct : ("vel-x" : String) ≠ "vel-y" := by decide

/-- Counterexample to C7 as stated: across two processed frames one unit
apart, the first velocity mapping sees the prior-frame difference (raw 1)
but the second velocity mapping of the same hand sees raw 0, although the
prior-frame finite difference for it is 1 — the first mapping's processing
replaced the previous-frame cache within the frame. -/
theorem velocity_cache_shared_counterexample :
    (((velMapper.process frameT1).1.process frameT2).1.getState
        velMapping1.id).map MappingState.rawValue = some 1 ∧
    (((velMapper.process frameT1).1.process frameT2).1.getState
        velMapping2.id).map MappingState.rawValue = some 0 ∧
    |((handT2.landmarks LandmarkIndex.WRIST).y - (handT1.landmarks LandmarkIndex.WRIST).y) /
        (frameT2.timestamp - frameT1.timestamp)| = 1 ∧
    (0 : ℝ) ≠ 1 := by
  refine ⟨?_, ?_, ?_, by norm_num⟩
  · norm_num [velMapper, velMapping1, velMapping2, GestureMapper.init,
      GestureMapper.addMapping, GestureMapper.createFilterForMapping, createFilter,
      SmoothingType.toFilterType, GestureMapper.process, processStep, findHand,
      extractGestureValue, filterLookupStep, assocSet, assocGet,
      GestureMapper.getState, applyMapping, normalizeClamped, applyCurve,
      Filter.filter, frameT1, frameT2, handT1, handT2,
      velIds_distinct, Ne.symm velIds_distinct]
  · norm_num [velMapper, velMapping1, velMapping2, GestureMapper.init,
      GestureMapper.addMapping, GestureMapper.createFilterForMapping, createFilter,
      SmoothingType.toFilterType, GestureMapper.process, processStep, findHand,
      extractGestureValue, filterLookupStep, assocSet, assocGet,
      GestureMapper.getState, applyMapping, normalizeClamped, applyCurve,
      Filter.filter, frameT1, frameT2, handT1, handT2,
      velIds_distinct, Ne.symm velIds_distinct]
  · norm_num [handT1, handT2, frameT1, frameT2]

end HandAudio

end
